import Mathlib

/-!
Verification of the akka_cluster_http_management_exporter core against its
design specification.

The exporter (akka_cluster_http_management_exporter.go) periodically fetches a
JSON cluster-membership snapshot over HTTP, counts members by status, and
republishes the counts as Prometheus gauges.  This file gives a shallow
embedding of the data model and of the collection cycle
(`Collect` = reset → scrape → publish) and proves / refutes the specified
properties.

Modelling notes on library behaviour referenced by the embedding:
* `prometheus.GaugeVec.Reset` deletes every labelled child series of the
  vector (it does not set them to zero); a subsequent `Collect` on the vector
  emits only the children that currently exist.  The single GaugeVec of this
  exporter (`current_members`, key 2 of `serverMetrics`) is therefore modelled
  as an `Option StatusCounts`: `none` when it has no children (after `Reset`),
  `some c` once `exportJsonFields` has set all six labelled values.
* `json.Unmarshal` into a zero-valued `Cluster` variable: on an unparseable
  (syntactically invalid) body it returns an error and leaves the variable at
  its zero value, so the code proceeds with an empty `Members` slice.
-/

namespace AkkaExporter

/-- `ClusterNode` from the source: one cluster participant. -/
structure ClusterNode where
  node : String
  nodeUid : String
  status : String
  roles : List String
deriving Repr, DecidableEq

/-- `Cluster` from the source: the decoded membership snapshot. -/
structure Cluster where
  selfNode : String
  leader : String
  oldest : String
  unreachable : List ClusterNode
  members : List ClusterNode
deriving Repr, DecidableEq

/-- Zero value of `Cluster`, what `var m Cluster` declares before a failed
`json.Unmarshal` leaves it untouched. -/
def zeroCluster : Cluster :=
  { selfNode := "", leader := "", oldest := "", unreachable := [], members := [] }

/-- The six local counters of `exportJsonFields`
(`var joining, up, leaving, exiting, removed, down int`). -/
structure StatusCounts where
  joining : Nat
  up : Nat
  leaving : Nat
  exiting : Nat
  removed : Nat
  down : Nat
deriving Repr, DecidableEq

/-- All-zero counters. -/
def zeroCounts : StatusCounts :=
  { joining := 0, up := 0, leaving := 0, exiting := 0, removed := 0, down := 0 }

/-- One iteration of the `for _, n := range members` loop of
`exportJsonFields`: the `switch n.Status` over the six known literals, with
an empty default case. -/
def bump (c : StatusCounts) (n : ClusterNode) : StatusCounts :=
  if n.status = "Up" then { c with up := c.up + 1 }
  else if n.status = "Down" then { c with down := c.down + 1 }
  else if n.status = "Joining" then { c with joining := c.joining + 1 }
  else if n.status = "Leaving" then { c with leaving := c.leaving + 1 }
  else if n.status = "Exiting" then { c with exiting := c.exiting + 1 }
  else if n.status = "Removed" then { c with removed := c.removed + 1 }
  else c

/-- The counting loop of `exportJsonFields`, started from all-zero counters. -/
def countMembers (members : List ClusterNode) : StatusCounts :=
  members.foldl bump zeroCounts

/-- Whether a status string is one of the six known member states. -/
def isKnownStatus (s : String) : Bool :=
  s == "Up" || s == "Down" || s == "Joining" || s == "Leaving" ||
    s == "Exiting" || s == "Removed"

/-- Sum of the six counters, in the order Up, Down, Joining, Leaving,
Exiting, Removed used when publishing. -/
def sumCounts (c : StatusCounts) : Nat :=
  c.up + c.down + c.joining + c.leaving + c.exiting + c.removed

theorem bump_eq (c : StatusCounts) (n : ClusterNode) :
    bump c n =
      { joining := c.joining + (if n.status = "Joining" then 1 else 0),
        up := c.up + (if n.status = "Up" then 1 else 0),
        leaving := c.leaving + (if n.status = "Leaving" then 1 else 0),
        exiting := c.exiting + (if n.status = "Exiting" then 1 else 0),
        removed := c.removed + (if n.status = "Removed" then 1 else 0),
        down := c.down + (if n.status = "Down" then 1 else 0) } := by
  obtain ⟨cj, cu, cl, ce, cr, cd⟩ := c
  unfold bump
  by_cases h1 : n.status = "Up"
  · simp [h1]
  by_cases h2 : n.status = "Down"
  · simp [h1, h2]
  by_cases h3 : n.status = "Joining"
  · simp [h1, h2, h3]
  by_cases h4 : n.status = "Leaving"
  · simp [h1, h2, h3, h4]
  by_cases h5 : n.status = "Exiting"
  · simp [h1, h2, h3, h4, h5]
  by_cases h6 : n.status = "Removed"
  · simp [h1, h2, h3, h4, h5, h6]
  simp [h1, h2, h3, h4, h5, h6]

theorem foldl_bump_eq (l : List ClusterNode) : ∀ c : StatusCounts,
    l.foldl bump c =
      { joining := c.joining + l.countP (fun n => n.status = "Joining"),
        up := c.up + l.countP (fun n => n.status = "Up"),
        leaving := c.leaving + l.countP (fun n => n.status = "Leaving"),
        exiting := c.exiting + l.countP (fun n => n.status = "Exiting"),
        removed := c.removed + l.countP (fun n => n.status = "Removed"),
        down := c.down + l.countP (fun n => n.status = "Down") } := by
  induction l with
  | nil => intro c; simp [List.countP_nil]
  | cons n l ih =>
    intro c
    have hstep : (n :: l).foldl bump c = l.foldl bump (bump c n) := rfl
    rw [hstep, ih (bump c n), bump_eq]
    simp only [List.countP_cons, decide_eq_true_eq, StatusCounts.mk.injEq]
    refine ⟨?_, ?_, ?_, ?_, ?_, ?_⟩ <;> omega

/-- `countMembers` computes, for each known status, the number of members
whose status is exactly that string. -/
theorem countMembers_eq (l : List ClusterNode) :
    countMembers l =
      { joining := l.countP (fun n => n.status = "Joining"),
        up := l.countP (fun n => n.status = "Up"),
        leaving := l.countP (fun n => n.status = "Leaving"),
        exiting := l.countP (fun n => n.status = "Exiting"),
        removed := l.countP (fun n => n.status = "Removed"),
        down := l.countP (fun n => n.status = "Down") } := by
  have h := foldl_bump_eq l zeroCounts
  simpa [countMembers, zeroCounts] using h

theorem known_count (s : String) :
    ((if s = "Up" then 1 else 0) + (if s = "Down" then 1 else 0) +
      (if s = "Joining" then 1 else 0) + (if s = "Leaving" then 1 else 0) +
      (if s = "Exiting" then 1 else 0) + (if s = "Removed" then 1 else 0) : Nat)
      = if isKnownStatus s then 1 else 0 := by
  by_cases h1 : s = "Up"
  · subst h1; decide
  by_cases h2 : s = "Down"
  · subst h2; decide
  by_cases h3 : s = "Joining"
  · subst h3; decide
  by_cases h4 : s = "Leaving"
  · subst h4; decide
  by_cases h5 : s = "Exiting"
  · subst h5; decide
  by_cases h6 : s = "Removed"
  · subst h6; decide
  simp [isKnownStatus, h1, h2, h3, h4, h5, h6]

theorem countP_known (l : List ClusterNode) :
    l.countP (fun n => n.status = "Up") + l.countP (fun n => n.status = "Down") +
      l.countP (fun n => n.status = "Joining") +
      l.countP (fun n => n.status = "Leaving") +
      l.countP (fun n => n.status = "Exiting") +
      l.countP (fun n => n.status = "Removed")
      = l.countP (fun n => isKnownStatus n.status) := by
  induction l with
  | nil => simp [List.countP_nil]
  | cons n l ih =>
    simp only [List.countP_cons, decide_eq_true_eq]
    have h := known_count n.status
    omega

/-- The mutable metric state of an `Exporter`: the `up` gauge (a fresh
prometheus gauge starts at 0) and the children of the single
`current_members` GaugeVec (`none` = no labelled children). -/
structure ExporterState where
  up : Nat
  current_members : Option StatusCounts
deriving Repr, DecidableEq

/-- State of a freshly constructed `Exporter`: gauge at 0, no children. -/
def initState : ExporterState :=
  { up := 0, current_members := none }

/-- `exportJsonFields`: counts the members and sets all six labelled gauges
("Up", "Down", "Joining", "Leaving", "Exiting", "Removed") on the
`current_members` vector, so afterwards all six children exist. -/
def exportJsonFields (st : ExporterState) (members : List ClusterNode) :
    ExporterState :=
  { st with current_members := some (countMembers members) }

/-- `resetMetrics`: `Reset` on every GaugeVec of `serverMetrics` deletes all
its labelled children. -/
def resetMetrics (st : ExporterState) : ExporterState :=
  { st with current_members := none }

/-- Outcome of the fetch / body-read / decode sequence inside one `scrape`
call, the only inputs the cycle's behaviour depends on:
* `fetchErr`  — `e.fetch()` returned an error (transport failure or non-2xx);
* `readErr`   — fetch succeeded but `ioutil.ReadAll(body)` failed;
* `parseErr`  — read succeeded but `json.Unmarshal` failed on an invalid
  body, leaving the zero-valued `Cluster`;
* `ok c`      — read and decode succeeded with snapshot `c`. -/
inductive FetchOutcome where
  | fetchErr
  | readErr
  | parseErr
  | ok (c : Cluster)
deriving Repr, DecidableEq

/-- `scrape`: on fetch error set `up` to 0 and return; otherwise set `up` to
1; if `ReadAll` succeeded, call `exportJsonFields` with `m.Members`
(the zero value's empty slice when `json.Unmarshal` failed); if `ReadAll`
failed, skip the export entirely. -/
def scrape (st : ExporterState) (f : FetchOutcome) : ExporterState :=
  match f with
  | .fetchErr => { st with up := 0 }
  | .readErr => { st with up := 1 }
  | .parseErr => exportJsonFields { st with up := 1 } zeroCluster.members
  | .ok c => exportJsonFields { st with up := 1 } c.members

/-- What one collection cycle sends on the output channel: the `up` gauge
value and the labelled samples of `current_members` that currently exist. -/
structure Published where
  up : Nat
  samples : List (String × Nat)
deriving Repr, DecidableEq

/-- The labelled samples a `Collect` on the GaugeVec emits: none when the
vector has no children, otherwise the six samples in the order
`exportJsonFields` sets them. -/
def statusSamples : Option StatusCounts → List (String × Nat)
  | none => []
  | some c =>
      [("Up", c.up), ("Down", c.down), ("Joining", c.joining),
       ("Leaving", c.leaving), ("Exiting", c.exiting), ("Removed", c.removed)]

/-- `Collect` (under the exporter's mutex): `resetMetrics`, then `scrape`,
then emit `e.up` and the existing labelled samples.  Returns the state after
the cycle and what was published. -/
def collectCycle (st : ExporterState) (f : FetchOutcome) :
    ExporterState × Published :=
  let st2 := scrape (resetMetrics st) f
  (st2, { up := st2.up, samples := statusSamples st2.current_members })

/-- Result of `client.Get` inside the closure returned by `fetchHTTP`. -/
inductive GetResult where
  | transportErr (e : String)
  | response (statusCode : Nat) (body : List Nat)
deriving Repr, DecidableEq

/-- Observable side effect of one fetch invocation. -/
inductive FetchEvent where
  | closedBody
deriving Repr, DecidableEq

/-- The closure returned by `fetchHTTP`, as a function of the `client.Get`
result: propagate a transport error; on a status code outside [200,300)
close the body and return the error `"HTTP status <code>"`; otherwise return
the body.  The second component records the `resp.Body.Close()` calls made
before returning. -/
def fetchHTTP (r : GetResult) : Except String (List Nat) × List FetchEvent :=
  match r with
  | .transportErr e => (.error e, [])
  | .response code body =>
      if 200 ≤ code ∧ code < 300 then (.ok body, [])
      else (.error ("HTTP status " ++ toString code), [.closedBody])

/-- A parsed URI as far as `NewExporter` consumes it (`url.Parse` is Go
library code; only the scheme is inspected). -/
structure URL where
  scheme : String
  rest : String
deriving Repr, DecidableEq

/-- The `Exporter` value `NewExporter` constructs: configuration plus the
initial metric state. -/
structure Exporter where
  URI : String
  timeout : Nat
  st : ExporterState
deriving Repr, DecidableEq

/-- `NewExporter`: propagate a `url.Parse` error; then `switch u.Scheme`:
"http" and "https" both install the `fetchHTTP` closure, any other scheme
returns the error `unsupported scheme: "<scheme>"` and no exporter. -/
def NewExporter (uri : String) (parsed : Except String URL) (timeout : Nat) :
    Except String Exporter :=
  match parsed with
  | .error e => .error e
  | .ok u =>
      if u.scheme = "http" ∨ u.scheme = "https" then
        .ok { URI := uri, timeout := timeout, st := initState }
      else
        .error ("unsupported scheme: \"" ++ u.scheme ++ "\"")

/-- Nodes of the scenario `{"members":[{"status":"Up"},{"status":"Up"},
{"status":"Down"},{"status":"Bogus"}]}`. -/
def exampleMembers : List ClusterNode :=
  [{ node := "a", nodeUid := "1", status := "Up", roles := [] },
   { node := "b", nodeUid := "2", status := "Up", roles := [] },
   { node := "c", nodeUid := "3", status := "Down", roles := [] },
   { node := "d", nodeUid := "4", status := "Bogus", roles := [] }]

/-- The scenario snapshot. -/
def exampleCluster : Cluster :=
  { zeroCluster with members := exampleMembers }

/-- A node with a status outside the six known values. -/
def bogusNode : ClusterNode :=
  { node := "x", nodeUid := "9", status := "Bogus", roles := [] }

/-- Sum of the values of a list of published samples. -/
def sumSamples (l : List (String × Nat)) : Nat :=
  (l.map Prod.snd).sum

/-- C1: in a cycle that publishes a snapshot, the published per-status counts
are `countMembers` of the snapshot's members, and the sum of the six counts
equals the number of members whose status is one of the six known values;
members with any other status are counted nowhere. -/
theorem C1_sum_of_counts (st : ExporterState) (c : Cluster) :
    ((collectCycle st (FetchOutcome.ok c)).1).current_members
        = some (countMembers c.members)
    ∧ sumCounts (countMembers c.members)
        = c.members.countP (fun n => isKnownStatus n.status)
    ∧ sumSamples ((collectCycle st (FetchOutcome.ok c)).2).samples
        = c.members.countP (fun n => isKnownStatus n.status) := by
  have hsum : sumCounts (countMembers c.members)
      = c.members.countP (fun n => isKnownStatus n.status) := by
    rw [countMembers_eq]
    simpa [sumCounts] using countP_known c.members
  refine ⟨rfl, hsum, ?_⟩
  have hs : ((collectCycle st (FetchOutcome.ok c)).2).samples
      = statusSamples (some (countMembers c.members)) := rfl
  rw [hs]
  simp only [statusSamples, sumSamples, List.map, List.sum_cons, List.sum_nil]
  simp only [sumCounts] at hsum
  omega

/-- C2: aggregation matches each node's status by exact case-sensitive
comparison against the six known values; a node with any other status
increments no counter; the scenario with members Up, Up, Down, Bogus
publishes Up=2, Down=1 and zero for the other four counters (with up=1). -/
theorem C2_exact_match :
    (∀ (c : StatusCounts) (n : ClusterNode),
        isKnownStatus n.status = false → bump c n = c)
    ∧ (∀ members : List ClusterNode,
        countMembers members =
          { joining := members.countP (fun n => n.status = "Joining"),
            up := members.countP (fun n => n.status = "Up"),
            leaving := members.countP (fun n => n.status = "Leaving"),
            exiting := members.countP (fun n => n.status = "Exiting"),
            removed := members.countP (fun n => n.status = "Removed"),
            down := members.countP (fun n => n.status = "Down") })
    ∧ (collectCycle initState (FetchOutcome.ok exampleCluster)).2
        = { up := 1,
            samples := [("Up", 2), ("Down", 1), ("Joining", 0),
                        ("Leaving", 0), ("Exiting", 0), ("Removed", 0)] } := by
  refine ⟨?_, countMembers_eq, by decide⟩
  intro c n h
  simp only [isKnownStatus, Bool.or_eq_false_iff, beq_eq_false_iff_ne, ne_eq] at h
  obtain ⟨⟨⟨⟨⟨h1, h2⟩, h3⟩, h4⟩, h5⟩, h6⟩ := h
  simp [bump, h1, h2, h3, h4, h5, h6]

/-- C2 witness: a node with status "Bogus" leaves the counters unchanged. -/
theorem C2_exact_match_witness : bump zeroCounts bogusNode = zeroCounts :=
  C2_exact_match.1 zeroCounts bogusNode (by decide)

/-- C3 counterexample: a cycle whose fetch fails publishes no per-status
sample at all — in particular no sample for the label "Up" — because the
reset deleted the labelled series and the export step never ran. -/
theorem C3_counterexample :
    ((collectCycle initState FetchOutcome.fetchErr).2).samples = []
    ∧ ¬ ∃ v, ("Up", v) ∈ ((collectCycle initState FetchOutcome.fetchErr).2).samples := by
  refine ⟨rfl, ?_⟩
  rintro ⟨v, hv⟩
  simp [collectCycle, scrape, resetMetrics, statusSamples, initState] at hv

/-- C3 amended: all six status labels are present in the published output of
every cycle in which the fetch succeeded and the body read succeeded
(including cycles whose body failed to parse), even when the count is zero;
a cycle whose fetch or body read failed publishes no status sample at all. -/
theorem C3_amended (st : ExporterState) (c : Cluster) (l : String)
    (hl : isKnownStatus l = true) :
    (∃ v, (l, v) ∈ ((collectCycle st (FetchOutcome.ok c)).2).samples)
    ∧ (∃ v, (l, v) ∈ ((collectCycle st FetchOutcome.parseErr).2).samples)
    ∧ ((collectCycle st FetchOutcome.fetchErr).2).samples = []
    ∧ ((collectCycle st FetchOutcome.readErr).2).samples = [] := by
  have hok : ((collectCycle st (FetchOutcome.ok c)).2).samples
      = statusSamples (some (countMembers c.members)) := rfl
  have hpe : ((collectCycle st FetchOutcome.parseErr).2).samples
      = statusSamples (some (countMembers ([] : List ClusterNode))) := rfl
  simp only [isKnownStatus, Bool.or_eq_true, beq_iff_eq] at hl
  refine ⟨?_, ?_, rfl, rfl⟩ <;>
    rcases hl with ((((h | h) | h) | h) | h) | h <;> subst h <;>
    simp [hok, hpe, statusSamples]

/-- C3 amended witness: at the label "Up" with an arbitrary snapshot. -/
theorem C3_amended_witness :
    ∃ v, ("Up", v) ∈ ((collectCycle initState (FetchOutcome.ok exampleCluster)).2).samples :=
  (C3_amended initState exampleCluster "Up" (by decide)).1

/-- State after a successful cycle that counted Up=2, Down=1. -/
def stAfterExample : ExporterState :=
  (collectCycle initState (FetchOutcome.ok exampleCluster)).1

/-- C4 counterexample: after a prior successful cycle, a failed-fetch cycle
publishes `up = 0` but does NOT publish six zero counts: it publishes no
status sample at all (not even ("Up", 0)). -/
theorem C4_counterexample :
    ((collectCycle stAfterExample FetchOutcome.fetchErr).2).up = 0
    ∧ ((collectCycle stAfterExample FetchOutcome.fetchErr).2).samples = []
    ∧ ("Up", 0) ∉ ((collectCycle stAfterExample FetchOutcome.fetchErr).2).samples := by
  refine ⟨rfl, rfl, by decide⟩

/-- C4 amended: a cycle whose fetch fails publishes `up = 0` and no
per-status sample at all (the reset deletes the labelled series before the
fetch is attempted), so no prior cycle's counts ever appear in the output of
a failed cycle. -/
theorem C4_amended (st : ExporterState) :
    (collectCycle st FetchOutcome.fetchErr).2 = { up := 0, samples := [] }
    ∧ ((collectCycle st FetchOutcome.fetchErr).1).current_members = none :=
  ⟨rfl, rfl⟩

/-- C5: a cycle whose fetch succeeds but whose body fails to parse publishes
`up = 1` and proceeds with the zero-valued snapshot's empty members sequence,
so all six status counts are published as zero; liveness reflects transport
health only. -/
theorem C5_parse_failure (st : ExporterState) :
    ((collectCycle st FetchOutcome.parseErr).1).current_members
        = some (countMembers zeroCluster.members)
    ∧ (collectCycle st FetchOutcome.parseErr).2
        = { up := 1,
            samples := [("Up", 0), ("Down", 0), ("Joining", 0),
                        ("Leaving", 0), ("Exiting", 0), ("Removed", 0)] } :=
  ⟨rfl, rfl⟩

/-- C6: constructing an Exporter from a URI whose parsed scheme is neither
"http" nor "https" returns the unsupported-scheme error and never an
exporter instance, so the failure happens once at construction time. -/
theorem C6_unsupported_scheme (uri : String) (u : URL) (t : Nat)
    (h1 : u.scheme ≠ "http") (h2 : u.scheme ≠ "https") :
    NewExporter uri (Except.ok u) t
        = Except.error ("unsupported scheme: \"" ++ u.scheme ++ "\"")
    ∧ ∀ e : Exporter, NewExporter uri (Except.ok u) t ≠ Except.ok e := by
  have hn : ¬ (u.scheme = "http" ∨ u.scheme = "https") := by
    rintro (h | h) <;> [exact h1 h; exact h2 h]
  constructor
  · simp [NewExporter, hn]
  · intro e
    simp [NewExporter, hn]

/-- C6 witness: scheme "ftp" is rejected at construction. -/
theorem C6_unsupported_scheme_witness :
    NewExporter "ftp://localhost:19999/members"
        (Except.ok { scheme := "ftp", rest := "//localhost:19999/members" }) 5
      = Except.error ("unsupported scheme: \"" ++ "ftp" ++ "\"") :=
  (C6_unsupported_scheme "ftp://localhost:19999/members"
    { scheme := "ftp", rest := "//localhost:19999/members" } 5
    (by decide) (by decide)).1

/-- C7: a fetch whose response status code lies outside [200,300) returns a
failure carrying that status code and no body, with the body closed before
returning; a status code inside [200,300) returns the body with no error and
closes nothing inside the fetch. -/
theorem C7_status_code (code : Nat) (body : List Nat) :
    (¬ (200 ≤ code ∧ code < 300) →
        fetchHTTP (GetResult.response code body)
          = (Except.error ("HTTP status " ++ toString code),
             [FetchEvent.closedBody]))
    ∧ ((200 ≤ code ∧ code < 300) →
        fetchHTTP (GetResult.response code body) = (Except.ok body, [])) := by
  constructor
  · intro h
    simp [fetchHTTP, h]
  · intro h
    simp [fetchHTTP, h]

/-- C7 witness: status 500 yields the status error with the body closed;
status 200 yields the body. -/
theorem C7_status_code_witness :
    fetchHTTP (GetResult.response 500 [7])
        = (Except.error ("HTTP status " ++ toString 500), [FetchEvent.closedBody])
    ∧ fetchHTTP (GetResult.response 200 [7]) = (Except.ok [7], []) :=
  ⟨(C7_status_code 500 [7]).1 (by decide), (C7_status_code 200 [7]).2 (by decide)⟩

/-- C9: the six published counts are invariant under any permutation of the
members sequence, and two snapshots with the same members sequence (however
their unreachable sequences differ) yield identical collection cycles, so
unreachable nodes contribute to no counter. -/
theorem C9_perm_invariant (l1 l2 : List ClusterNode) (hp : List.Perm l1 l2) :
    countMembers l1 = countMembers l2
    ∧ ∀ (st : ExporterState) (c1 c2 : Cluster), c1.members = c2.members →
        collectCycle st (FetchOutcome.ok c1) = collectCycle st (FetchOutcome.ok c2) := by
  constructor
  · rw [countMembers_eq, countMembers_eq]
    simp only [StatusCounts.mk.injEq]
    refine ⟨?_, ?_, ?_, ?_, ?_, ?_⟩ <;> exact hp.countP_eq _
  · intro st c1 c2 hm
    simp [collectCycle, scrape, exportJsonFields, hm]

/-- C9 witness: swapping an Up node and a Down node leaves the counts
unchanged. -/
theorem C9_perm_invariant_witness :
    countMembers [bogusNode, { bogusNode with status := "Up" }]
      = countMembers [{ bogusNode with status := "Up" }, bogusNode] :=
  (C9_perm_invariant _ _
    (List.Perm.swap { bogusNode with status := "Up" } bogusNode [])).1

/-- C10: a cycle whose fetch succeeds but whose body read fails publishes
`up = 1` while the export step is skipped, so the per-status vector stays in
its reset state and no status sample is published that cycle. -/
theorem C10_read_failure (st : ExporterState) :
    ((collectCycle st FetchOutcome.readErr).1).up = 1
    ∧ ((collectCycle st FetchOutcome.readErr).1).current_members = none
    ∧ (collectCycle st FetchOutcome.readErr).2 = { up := 1, samples := [] } :=
  ⟨rfl, rfl, rfl⟩

/-!
Concurrency model for `Collect`.  Each metrics-scrape request runs `Collect`
on its own goroutine; `Collect` brackets the whole cycle in
`e.mutex.Lock() ... defer e.mutex.Unlock()`.  A trigger is modelled as a
program counter walking through acquire → resetMetrics → scrape → publish →
release; the shared state (the lock and the guarded metric state) can only
be touched by the trigger currently holding the lock.  The upstream snapshot
is fixed, so every trigger's scrape sees the same fetch outcome.
-/

/-- Program counter of one collection trigger. -/
inductive PC where
  | start
  | locked
  | wasReset
  | scraped
  | emitted (p : Published)
  | finished (p : Published)
deriving Repr, DecidableEq

/-- Shared system state for `n` concurrent triggers: the exporter's mutex
(the trigger holding it, if any), the metric state it guards, and each
trigger's program counter. -/
structure Sys (n : Nat) where
  lock : Option (Fin n)
  est : ExporterState
  pcs : Fin n → PC

/-- Update one trigger's program counter. -/
def setPC {n : Nat} (pcs : Fin n → PC) (t : Fin n) (pc : PC) : Fin n → PC :=
  fun t2 => if t2 = t then pc else pcs t2

/-- Initial system: lock free, some exporter state, all triggers at start. -/
def initSys (n : Nat) (st : ExporterState) : Sys n :=
  { lock := none, est := st, pcs := fun _ => PC.start }

/-- The exporter state one cycle's reset-then-scrape leaves; it does not
depend on the pre-cycle state because the reset deletes the labelled series
and the scrape overwrites `up` on every path. -/
def cycleState (f : FetchOutcome) : ExporterState :=
  scrape (resetMetrics initState) f

/-- What one complete cycle publishes for fetch outcome `f`. -/
def cycleOutput (f : FetchOutcome) : Published :=
  { up := (cycleState f).up,
    samples := statusSamples (cycleState f).current_members }

/-- One atomic step of one trigger `t` running `Collect` against the fixed
fetch outcome `f`.  Acquiring requires the mutex to be free; every step that
reads or writes the guarded metric state requires `t` to hold the mutex. -/
inductive Step (n : Nat) (f : FetchOutcome) : Sys n → Sys n → Prop where
  | doAcquire (s : Sys n) (t : Fin n)
      (hpc : s.pcs t = PC.start) (hl : s.lock = none) :
      Step n f s { s with lock := some t, pcs := setPC s.pcs t PC.locked }
  | doReset (s : Sys n) (t : Fin n)
      (hpc : s.pcs t = PC.locked) (hl : s.lock = some t) :
      Step n f s
        { s with est := resetMetrics s.est, pcs := setPC s.pcs t PC.wasReset }
  | doScrape (s : Sys n) (t : Fin n)
      (hpc : s.pcs t = PC.wasReset) (hl : s.lock = some t) :
      Step n f s
        { s with est := scrape s.est f, pcs := setPC s.pcs t PC.scraped }
  | doPublish (s : Sys n) (t : Fin n)
      (hpc : s.pcs t = PC.scraped) (hl : s.lock = some t) :
      Step n f s
        { s with
            pcs := setPC s.pcs t (PC.emitted
              { up := s.est.up,
                samples := statusSamples s.est.current_members }) }
  | doRelease (s : Sys n) (t : Fin n) (p : Published)
      (hpc : s.pcs t = PC.emitted p) (hl : s.lock = some t) :
      Step n f s
        { s with lock := none, pcs := setPC s.pcs t (PC.finished p) }

/-- A trigger between acquire and release. -/
def inCritical (pc : PC) : Prop :=
  pc = PC.locked ∨ pc = PC.wasReset ∨ pc = PC.scraped ∨ ∃ p, pc = PC.emitted p

/-- Mutual-exclusion invariant of the system: a trigger inside the critical
section owns the lock, and the guarded state reflects how far the lock
owner has progressed; every finished trigger published the unique cycle
output. -/
structure Inv (n : Nat) (f : FetchOutcome) (s : Sys n) : Prop where
  lockOwner : ∀ t : Fin n, inCritical (s.pcs t) → s.lock = some t
  resetDone : ∀ t : Fin n, s.pcs t = PC.wasReset → s.est.current_members = none
  scrapeDone : ∀ t : Fin n, s.pcs t = PC.scraped → s.est = cycleState f
  emitOk : ∀ (t : Fin n) (p : Published),
    s.pcs t = PC.emitted p → p = cycleOutput f
  finOk : ∀ (t : Fin n) (p : Published),
    s.pcs t = PC.finished p → p = cycleOutput f

theorem setPC_self {n : Nat} (pcs : Fin n → PC) (t : Fin n) (pc : PC) :
    setPC pcs t pc t = pc := by
  simp [setPC]

theorem setPC_ne {n : Nat} (pcs : Fin n → PC) (t t2 : Fin n) (pc : PC)
    (h : t2 ≠ t) : setPC pcs t pc t2 = pcs t2 := by
  simp [setPC, h]

/-- A scrape from any state whose labelled series were deleted lands in the
state `cycleState f`, whatever the pre-reset state was. -/
theorem scrape_of_reset (st : ExporterState) (f : FetchOutcome)
    (h : st.current_members = none) : scrape st f = cycleState f := by
  obtain ⟨u, cm⟩ := st
  subst h
  cases f <;> rfl

theorem critical_owner {n : Nat} {f : FetchOutcome} {s : Sys n}
    (hinv : Inv n f s) {t : Fin n} (hl : s.lock = some t) (t2 : Fin n)
    (hc : inCritical (s.pcs t2)) : t2 = t := by
  have h2 := hinv.lockOwner t2 hc
  rw [hl] at h2
  exact (Option.some.inj h2).symm

theorem free_no_critical {n : Nat} {f : FetchOutcome} {s : Sys n}
    (hinv : Inv n f s) (hl : s.lock = none) (t2 : Fin n) :
    ¬ inCritical (s.pcs t2) := by
  intro hc
  have h2 := hinv.lockOwner t2 hc
  rw [hl] at h2
  exact Option.noConfusion h2

theorem inv_init (n : Nat) (f : FetchOutcome) (st : ExporterState) :
    Inv n f (initSys n st) := by
  constructor
  · intro t hc
    simp [initSys, inCritical] at hc
  · intro t h
    simp [initSys] at h
  · intro t h
    simp [initSys] at h
  · intro t p h
    simp [initSys] at h
  · intro t p h
    simp [initSys] at h

theorem inv_step {n : Nat} {f : FetchOutcome} {s s2 : Sys n}
    (hinv : Inv n f s) (hstep : Step n f s s2) : Inv n f s2 := by
  cases hstep with
  | doAcquire t hpc hl =>
      constructor
      · intro t2 hc
        dsimp only at hc ⊢
        by_cases ht : t2 = t
        · subst ht; rfl
        · rw [setPC_ne _ _ _ _ ht] at hc
          exact absurd hc (free_no_critical hinv hl t2)
      · intro t2 h
        dsimp only at h ⊢
        by_cases ht : t2 = t
        · subst ht; rw [setPC_self] at h; exact PC.noConfusion h
        · rw [setPC_ne _ _ _ _ ht] at h
          exact absurd (Or.inr (Or.inl h)) (free_no_critical hinv hl t2)
      · intro t2 h
        dsimp only at h ⊢
        by_cases ht : t2 = t
        · subst ht; rw [setPC_self] at h; exact PC.noConfusion h
        · rw [setPC_ne _ _ _ _ ht] at h
          exact absurd (Or.inr (Or.inr (Or.inl h)))
            (free_no_critical hinv hl t2)
      · intro t2 p h
        dsimp only at h ⊢
        by_cases ht : t2 = t
        · subst ht; rw [setPC_self] at h; exact PC.noConfusion h
        · rw [setPC_ne _ _ _ _ ht] at h
          exact absurd (Or.inr (Or.inr (Or.inr ⟨p, h⟩)))
            (free_no_critical hinv hl t2)
      · intro t2 p h
        dsimp only at h ⊢
        by_cases ht : t2 = t
        · subst ht; rw [setPC_self] at h; exact PC.noConfusion h
        · rw [setPC_ne _ _ _ _ ht] at h
          exact hinv.finOk t2 p h
  | doReset t hpc hl =>
      constructor
      · intro t2 hc
        dsimp only at hc ⊢
        by_cases ht : t2 = t
        · subst ht; exact hl
        · rw [setPC_ne _ _ _ _ ht] at hc
          exact absurd (critical_owner hinv hl t2 hc) ht
      · intro t2 h
        dsimp only at h ⊢
        by_cases ht : t2 = t
        · simp [resetMetrics]
        · rw [setPC_ne _ _ _ _ ht] at h
          exact absurd (critical_owner hinv hl t2 (Or.inr (Or.inl h))) ht
      · intro t2 h
        dsimp only at h ⊢
        by_cases ht : t2 = t
        · subst ht; rw [setPC_self] at h; exact PC.noConfusion h
        · rw [setPC_ne _ _ _ _ ht] at h
          exact absurd (critical_owner hinv hl t2 (Or.inr (Or.inr (Or.inl h)))) ht
      · intro t2 p h
        dsimp only at h ⊢
        by_cases ht : t2 = t
        · subst ht; rw [setPC_self] at h; exact PC.noConfusion h
        · rw [setPC_ne _ _ _ _ ht] at h
          exact absurd (critical_owner hinv hl t2
            (Or.inr (Or.inr (Or.inr ⟨p, h⟩)))) ht
      · intro t2 p h
        dsimp only at h ⊢
        by_cases ht : t2 = t
        · subst ht; rw [setPC_self] at h; exact PC.noConfusion h
        · rw [setPC_ne _ _ _ _ ht] at h
          exact hinv.finOk t2 p h
  | doScrape t hpc hl =>
      have hnone : s.est.current_members = none := hinv.resetDone t hpc
      constructor
      · intro t2 hc
        dsimp only at hc ⊢
        by_cases ht : t2 = t
        · subst ht; exact hl
        · rw [setPC_ne _ _ _ _ ht] at hc
          exact absurd (critical_owner hinv hl t2 hc) ht
      · intro t2 h
        dsimp only at h ⊢
        by_cases ht : t2 = t
        · subst ht; rw [setPC_self] at h; exact PC.noConfusion h
        · rw [setPC_ne _ _ _ _ ht] at h
          exact absurd (critical_owner hinv hl t2 (Or.inr (Or.inl h))) ht
      · intro t2 h
        dsimp only at h ⊢
        by_cases ht : t2 = t
        · exact scrape_of_reset s.est f hnone
        · rw [setPC_ne _ _ _ _ ht] at h
          exact absurd (critical_owner hinv hl t2 (Or.inr (Or.inr (Or.inl h)))) ht
      · intro t2 p h
        dsimp only at h ⊢
        by_cases ht : t2 = t
        · subst ht; rw [setPC_self] at h; exact PC.noConfusion h
        · rw [setPC_ne _ _ _ _ ht] at h
          exact absurd (critical_owner hinv hl t2
            (Or.inr (Or.inr (Or.inr ⟨p, h⟩)))) ht
      · intro t2 p h
        dsimp only at h ⊢
        by_cases ht : t2 = t
        · subst ht; rw [setPC_self] at h; exact PC.noConfusion h
        · rw [setPC_ne _ _ _ _ ht] at h
          exact hinv.finOk t2 p h
  | doPublish t hpc hl =>
      have hcyc : s.est = cycleState f := hinv.scrapeDone t hpc
      constructor
      · intro t2 hc
        dsimp only at hc ⊢
        by_cases ht : t2 = t
        · subst ht; exact hl
        · rw [setPC_ne _ _ _ _ ht] at hc
          exact absurd (critical_owner hinv hl t2 hc) ht
      · intro t2 h
        dsimp only at h ⊢
        by_cases ht : t2 = t
        · subst ht; rw [setPC_self] at h; exact PC.noConfusion h
        · rw [setPC_ne _ _ _ _ ht] at h
          exact absurd (critical_owner hinv hl t2 (Or.inr (Or.inl h))) ht
      · intro t2 h
        dsimp only at h ⊢
        by_cases ht : t2 = t
        · subst ht; rw [setPC_self] at h; exact PC.noConfusion h
        · rw [setPC_ne _ _ _ _ ht] at h
          exact absurd (critical_owner hinv hl t2 (Or.inr (Or.inr (Or.inl h)))) ht
      · intro t2 p h
        dsimp only at h ⊢
        by_cases ht : t2 = t
        · subst ht; rw [setPC_self] at h
          cases h
          rw [hcyc]
          rfl
        · rw [setPC_ne _ _ _ _ ht] at h
          exact hinv.emitOk t2 p h
      · intro t2 p h
        dsimp only at h ⊢
        by_cases ht : t2 = t
        · subst ht; rw [setPC_self] at h; exact PC.noConfusion h
        · rw [setPC_ne _ _ _ _ ht] at h
          exact hinv.finOk t2 p h
  | doRelease t p hpc hl =>
      constructor
      · intro t2 hc
        dsimp only at hc ⊢
        by_cases ht : t2 = t
        · subst ht; rw [setPC_self] at hc
          rcases hc with h | h | h | ⟨q, h⟩ <;> exact PC.noConfusion h
        · rw [setPC_ne _ _ _ _ ht] at hc
          exact absurd (critical_owner hinv hl t2 hc) ht
      · intro t2 h
        dsimp only at h ⊢
        by_cases ht : t2 = t
        · subst ht; rw [setPC_self] at h; exact PC.noConfusion h
        · rw [setPC_ne _ _ _ _ ht] at h
          exact hinv.resetDone t2 h
      · intro t2 h
        dsimp only at h ⊢
        by_cases ht : t2 = t
        · subst ht; rw [setPC_self] at h; exact PC.noConfusion h
        · rw [setPC_ne _ _ _ _ ht] at h
          exact hinv.scrapeDone t2 h
      · intro t2 q h
        dsimp only at h ⊢
        by_cases ht : t2 = t
        · subst ht; rw [setPC_self] at h; exact PC.noConfusion h
        · rw [setPC_ne _ _ _ _ ht] at h
          exact hinv.emitOk t2 q h
      · intro t2 q h
        dsimp only at h ⊢
        by_cases ht : t2 = t
        · subst ht; rw [setPC_self] at h
          cases h
          exact hinv.emitOk _ _ hpc
        · rw [setPC_ne _ _ _ _ ht] at h
          exact hinv.finOk t2 q h

theorem inv_reachable {n : Nat} {f : FetchOutcome} {st : ExporterState}
    {s : Sys n}
    (h : Relation.ReflTransGen (Step n f) (initSys n st) s) : Inv n f s := by
  induction h with
  | refl => exact inv_init n f st
  | tail hr hstep ih => exact inv_step ih hstep

/-- C8: with every cycle bracketed by the exporter's exclusive lock, any
interleaved execution of `n` collection triggers against a fixed upstream
outcome is serialized: every trigger that finishes has published exactly the
sequential cycle output, so all finished triggers publish identical results
and none observes a partially-reset or partially-aggregated state. -/
theorem C8_serialized_collects (n : Nat) (f : FetchOutcome)
    (st0 : ExporterState) (s : Sys n)
    (hreach : Relation.ReflTransGen (Step n f) (initSys n st0) s) :
    (∀ (t : Fin n) (p : Published), s.pcs t = PC.finished p → p = cycleOutput f)
    ∧ ∀ (t1 t2 : Fin n) (p1 p2 : Published),
        s.pcs t1 = PC.finished p1 → s.pcs t2 = PC.finished p2 → p1 = p2 := by
  have hinv := inv_reachable hreach
  refine ⟨fun t p h => hinv.finOk t p h, fun t1 t2 p1 p2 h1 h2 => ?_⟩
  rw [hinv.finOk t1 p1 h1, hinv.finOk t2 p2 h2]

/-- Concrete five-step run of a single trigger with a failing fetch. -/
def sys0 : Sys 1 := initSys 1 initState

def sys1 : Sys 1 :=
  { sys0 with lock := some 0, pcs := setPC sys0.pcs 0 PC.locked }

def sys2 : Sys 1 :=
  { sys1 with est := resetMetrics sys1.est, pcs := setPC sys1.pcs 0 PC.wasReset }

def sys3 : Sys 1 :=
  { sys2 with est := scrape sys2.est FetchOutcome.fetchErr,
              pcs := setPC sys2.pcs 0 PC.scraped }

def sys4 : Sys 1 :=
  { sys3 with
      pcs := setPC sys3.pcs 0 (PC.emitted
        { up := sys3.est.up, samples := statusSamples sys3.est.current_members }) }

def sys5 : Sys 1 :=
  { sys4 with lock := none,
              pcs := setPC sys4.pcs 0 (PC.finished
                { up := sys3.est.up,
                  samples := statusSamples sys3.est.current_members }) }

/-- C8 witness: running one trigger to completion on a failing fetch
publishes exactly the sequential cycle output `⟨0, []⟩`. -/
theorem C8_serialized_collects_witness :
    ({ up := 0, samples := [] } : Published) = cycleOutput FetchOutcome.fetchErr := by
  have hreach : Relation.ReflTransGen (Step 1 FetchOutcome.fetchErr) sys0 sys5 := by
    apply Relation.ReflTransGen.head (Step.doAcquire sys0 0 rfl rfl)
    apply Relation.ReflTransGen.head (Step.doReset sys1 0 rfl rfl)
    apply Relation.ReflTransGen.head (Step.doScrape sys2 0 rfl rfl)
    apply Relation.ReflTransGen.head (Step.doPublish sys3 0 rfl rfl)
    apply Relation.ReflTransGen.head (Step.doRelease sys4 0 _ rfl rfl)
    exact Relation.ReflTransGen.refl
  exact (C8_serialized_collects 1 FetchOutcome.fetchErr initState sys5 hreach).1
    0 { up := 0, samples := [] } rfl

end AkkaExporter
